import Mathlib

/-!
Verification of the multi-transport MCP session lifecycle manager
(ts-wordpress-mcp-server).

Shallow embedding of:
- `src/transport/streamable-http.ts`: the streamable-HTTP session registry
  (`streamableTransports` + `sessionTimes`), `closeTransport`, the reaper
  tick of `setupSessionCleanup`, `handleStreamableHttpRequest`, and
  `closeAllStreamableTransports`;
- `src/transport/sse.ts`: `handleSseMessage` and `closeAllSseTransports`;
- `src/index.ts`: the SIGINT shutdown orchestration;
- `src/tools/media-tools.ts`: the `upload_media` tool handler.

Registries are embedded as association lists (JS object string-key maps);
machine times are `Nat` milliseconds; the protocol-engine collaborator
(the MCP SDK transport) is abstracted by explicit parameters where the
handler consults it (`isInitReq`, session-id generation, session
acceptance, per-session close failure).
-/

namespace WpMcp

/-- A JSON-RPC request id as it appears in a request body.  JavaScript
distinguishes a present-but-`null` id from an absent (`undefined`) one;
absence is modelled by wrapping `ReqId` in `Option` at use sites, and a
present `null` id is `ReqId.null`. -/
inductive ReqId where
  | num (n : Int)
  | str (s : String)
  | null
deriving DecidableEq, Repr

/-- The fields of a request body that `handleStreamableHttpRequest` reads
(`req.body?.jsonrpc`, `req.body?.method`, `req.body?.params?.client_name`,
`req.body?.params?.client_version`, `req.body?.id`).  `none` models an
absent (`undefined`) field, covering an absent `params` object as well. -/
structure Body where
  jsonrpc : Option String
  method : Option String
  client_name : Option String
  client_version : Option String
  id : Option ReqId
deriving DecidableEq, Repr

/-- JavaScript truthiness of an optional string field: present and
non-empty.  (`undefined` and the empty string are falsy.) -/
def truthy : Option String → Bool
  | some s => !(s == "")
  | none => false

/-- `req.body?.id ?? null`: the id echoed in error responses — the body's
id when present (a present JSON `null` stays `null`), else `null`. -/
def respId (b : Body) : ReqId := b.id.getD ReqId.null

/-- The manual structural validation of an initialization request
(streamable-http.ts lines 113-118): `jsonrpc === '2.0'`, `method ===
'initialize'`, truthy `params.client_name` and `params.client_version`,
and `id !== undefined`. -/
def isManuallyValidated (b : Body) : Bool :=
  b.jsonrpc == some "2.0" &&
  b.method == some "initialize" &&
  truthy b.client_name &&
  truthy b.client_version &&
  b.id.isSome

/-- Session timeout, 30 minutes in milliseconds (streamable-http.ts line 18). -/
def SESSION_TIMEOUT_MS : Nat := 30 * 60 * 1000

/-- The two module-level registries of streamable-http.ts:
`streamableTransports` (session id → transport; only presence of the key
matters to the lifecycle logic) and `sessionTimes` (session id →
last-activity timestamp in ms).  JS objects cannot hold duplicate keys;
all operations below remove every occurrence of a key, so no separate
no-duplicate invariant is needed. -/
structure St where
  transports : List String
  times : List (String × Nat)
deriving DecidableEq, Repr

/-- `delete streamableTransports[sid]` — key removal. -/
def removeKey (sid : String) (l : List String) : List String :=
  l.filter (fun x => x != sid)

/-- `delete sessionTimes[sid]` — key removal from the timestamp map. -/
def removeTime (sid : String) (l : List (String × Nat)) : List (String × Nat) :=
  l.filter (fun p => p.1 != sid)

/-- `sessionTimes[sid] = now` — JS object assignment (overwrite or add). -/
def setTime (sid : String) (now : Nat) (l : List (String × Nat)) :
    List (String × Nat) :=
  (sid, now) :: removeTime sid l

/-- `closeTransport(sessionId)` (streamable-http.ts lines 45-56): if the
session is registered, `await transport.close()` inside a try/catch whose
catch only logs, then unconditionally delete the entry from both
registries; otherwise do nothing.  `closeFails sid` says whether the
engine's `close()` throws for that session; the returned `Bool` records
whether a close error was logged.  Because the throw is caught, the
resulting registry state does not depend on `closeFails`. -/
def closeTransport (closeFails : String → Bool) (sid : String) (st : St) :
    St × Bool :=
  if sid ∈ st.transports then
    ({ transports := removeKey sid st.transports,
       times := removeTime sid st.times }, closeFails sid)
  else (st, false)

/-- The session ids swept by one reaper tick: those whose last activity is
more than `SESSION_TIMEOUT_MS` before `now` (`now - sessionTimes[sid] >
SESSION_TIMEOUT_MS`, streamable-http.ts line 27; for `Nat` times this is
`t + SESSION_TIMEOUT_MS < now`, matching the JS signed comparison). -/
def expiredIds (now : Nat) (st : St) : List String :=
  (st.times.filter (fun p => decide (p.2 + SESSION_TIMEOUT_MS < now))).map
    (fun p => p.1)

/-- One tick of `setupSessionCleanup` (streamable-http.ts lines 24-37):
for every expired session, `closeTransport` inside a try/catch whose catch
only logs, so one session's failure does not stop the sweep. -/
def reaperTick (closeFails : String → Bool) (now : Nat) (st : St) : St :=
  (expiredIds now st).foldl (fun s sid => (closeTransport closeFails sid s).1) st

/-- `streamableTransports[initSessionId] = transport; sessionTimes[initSessionId]
= Date.now()` — the body of the `onsessioninitialized` callback
(streamable-http.ts lines 133-136), run by the SDK transport exactly when
the engine confirms the new session is accepted. -/
def registerSession (sid : String) (now : Nat) (st : St) : St :=
  { transports := sid :: removeKey sid st.transports,
    times := setTime sid now st.times }

/-- HTTP verbs the `/mcp` endpoint demultiplexes on. -/
inductive Method where
  | POST
  | GET
  | DELETE
deriving DecidableEq, Repr

/-- An inbound `/mcp` request: verb, the `mcp-session-id` header (absent =
`none`), and the parsed body fields. -/
structure Req where
  method : Method
  sessionId : Option String
  body : Body
deriving DecidableEq, Repr

/-- The observable outcome `handleStreamableHttpRequest` produces:
`terminated` — the 200 DELETE success envelope; `err status code id` — a
JSON error envelope with that HTTP status, error code and echoed id;
`handled sid` — the request was routed to the engine registered under
`sid` (existing-session branch); `initHandled sid` — a fresh engine was
created for new session `sid` and the request handed to it. -/
inductive Resp where
  | terminated
  | err (status : Nat) (code : Int) (id : ReqId)
  | handled (sid : String)
  | initHandled (sid : String)
deriving DecidableEq, Repr

/-- The collaborator-supplied context of one `/mcp` request:
`isInitReq` — the SDK's `isInitializeRequest` check (external library,
consumed as a predicate on the body); `freshId` — the id the transport's
`sessionIdGenerator` (`randomUUID`) would mint for this request;
`accepts` — whether engine construction and `server.connect` succeed so
that the SDK fires `onsessioninitialized` (when false, the thrown error is
caught and answered with the 500 envelope of lines 199-208); `now` — the
current time in ms. -/
structure Ctx where
  isInitReq : Body → Bool
  freshId : String
  accepts : Bool
  now : Nat

/-- `handleStreamableHttpRequest` (streamable-http.ts lines 60-210),
branch for branch:
- DELETE with a session id: close and remove if registered (200 success),
  else 404 with code -32000 and `null` id (lines 76-95);
- any verb with a registered session id: refresh `sessionTimes[sid]` and
  route to that session's engine (lines 99-105);
- POST without a session id: if `isInitializeRequest(body)` or the manual
  structural check passes, mint a fresh engine — registration happens in
  `onsessioninitialized` only once the engine accepts — else 400 code
  -32000 echoing `body.id ?? null` (lines 106-164);
- everything else (unknown or expired session id, or a non-POST without
  one): 400 with code -32000 echoing `body.id ?? null` (lines 165-181). -/
def handleStreamableHttpRequest (ctx : Ctx) (closeFails : String → Bool)
    (req : Req) (st : St) : Resp × St :=
  match req.sessionId with
  | some sid =>
    if req.method = Method.DELETE then
      if sid ∈ st.transports then
        (Resp.terminated, (closeTransport closeFails sid st).1)
      else
        (Resp.err 404 (-32000) ReqId.null, st)
    else if sid ∈ st.transports then
      (Resp.handled sid, { st with times := setTime sid ctx.now st.times })
    else
      (Resp.err 400 (-32000) (respId req.body), st)
  | none =>
    if req.method = Method.POST then
      if ctx.isInitReq req.body || isManuallyValidated req.body then
        if ctx.accepts then
          (Resp.initHandled ctx.freshId, registerSession ctx.freshId ctx.now st)
        else
          (Resp.err 500 (-32603) (respId req.body), st)
      else
        (Resp.err 400 (-32000) (respId req.body), st)
    else
      (Resp.err 400 (-32000) (respId req.body), st)

/-- `closeAllStreamableTransports` (streamable-http.ts lines 215-229):
`closeTransport` on a snapshot of the registry's keys, each wrapped so a
per-session failure is caught and does not stop the others. -/
def closeAllStreamableTransports (closeFails : String → Bool) (st : St) : St :=
  st.transports.foldl (fun s sid => (closeTransport closeFails sid s).1) st

/-- The legacy registry `sseTransports` (sse.ts line 9): session id →
transport; only key presence matters to the routing logic. -/
abbrev SseSt := List String

/-- Outcome of `handleSseMessage`: the message was forwarded to the
engine registered under `sid`, or a JSON error envelope was sent. -/
inductive SseResp where
  | forwarded (sid : String)
  | err (status : Nat) (code : Int) (id : Option ReqId)
deriving DecidableEq, Repr

/-- `handleSseMessage` (sse.ts lines 37-69): look up the `sessionId` query
parameter in `sseTransports`; if found, `transport.handlePostMessage`
inside a try/catch that converts a thrown error into a 500 envelope with
code -32603; if not found, a 400 envelope with code -32000.  Both error
envelopes echo `req.body.id`.  `processFails` says whether
`handlePostMessage` throws for this request. -/
def handleSseMessage (processFails : Bool) (sessionId : Option String)
    (bodyId : Option ReqId) (st : SseSt) : SseResp :=
  match sessionId with
  | some sid =>
    if sid ∈ st then
      if processFails then SseResp.err 500 (-32603) bodyId
      else SseResp.forwarded sid
    else SseResp.err 400 (-32000) bodyId
  | none => SseResp.err 400 (-32000) bodyId

/-- `closeAllSseTransports` (sse.ts lines 74-85): iterate the registry in
key order; per session, try `close()` then delete the entry, catching and
logging a throw (a throw skips that session's delete).  Returns the
surviving registry and the list of sessions on which `close()` was
invoked. -/
def closeAllSseTransports (closeFails : String → Bool) :
    SseSt → SseSt × List String
  | [] => ([], [])
  | sid :: rest =>
    let r := closeAllSseTransports closeFails rest
    (if closeFails sid then sid :: r.1 else r.1, sid :: r.2)

/-- The SIGINT handler (index.ts lines 199-219): `Promise.all` of
`closeAllStreamableTransports()` and `closeAllSseTransports()` — the two
sweeps are independent, each isolating per-session failures — then
`server.close` whose completion callback exits with code 0, raced against
a 5-second timer that force-exits with code 1.  `withinDeadline` says
whether graceful closure completes before the timer fires.  Result: the
two final registries and the process exit code. -/
def sigintShutdown (closeFailsStream closeFailsSse : String → Bool)
    (withinDeadline : Bool) (stream : St) (sse : SseSt) :
    St × SseSt × Nat :=
  (closeAllStreamableTransports closeFailsStream stream,
   (closeAllSseTransports closeFailsSse sse).1,
   if withinDeadline then 0 else 1)

/-- Default allowed upload extensions (config, part_002 lines 54-55:
`ALLOWED_FILE_TYPES` env default `'jpg,jpeg,png,gif,pdf,doc,docx,mp3,mp4'`). -/
def ALLOWED_FILE_TYPES : List String :=
  ["jpg", "jpeg", "png", "gif", "pdf", "doc", "docx", "mp3", "mp4"]

/-- Default upload size ceiling in MB (config, part_002 lines 51-52). -/
def MAX_FILE_SIZE_MB : Nat := 50

/-- `file_name.split('.').pop()?.toLowerCase() || ''` (media-tools.ts
line 33), at the character level: JS `split('.')` cuts at every dot
(adjacent dots give empty segments) and never yields an empty array, so
`pop()` always yields a string; `toLowerCase` on the ASCII extensions at
play is per-character lowering; `|| ''` only maps the empty string to
itself. -/
def fileExtension (file_name : String) : String :=
  String.mk (((file_name.data.splitOn '.').getLast?.getD []).map Char.toLower)

/-- Whether one of the base64 alphabet characters (excluding padding).
Node's forgiving decoder processes exactly these. -/
def isB64Char (c : Char) : Bool :=
  (('A' ≤ c && c ≤ 'Z') || ('a' ≤ c && c ≤ 'z') || ('0' ≤ c && c ≤ '9')
    || c == '+' || c == '/')

/-- Byte length of `Buffer.from(s, 'base64')`.  Node's base64 decoder is
forgiving: non-alphabet characters are skipped, and a trailing group of
2 or 3 alphabet characters contributes 1 or 2 bytes. -/
def base64DecodedLen (s : String) : Nat :=
  let n := (s.toList.filter isB64Char).length
  3 * (n / 4) + (if n % 4 == 3 then 2 else if n % 4 == 2 then 1 else 0)

/-- Whether `Buffer.from(s, 'base64')` throws for a string argument.
Modelled from Node semantics: it never does — decoding is best-effort
(invalid characters are skipped, never reported), so this is constantly
`false`.  The try/catch around the decode in media-tools.ts lines 48-58
guards on exactly this. -/
def bufferFromBase64Throws (_s : String) : Bool := false

/-- A tool result item as returned to the MCP client: the human-readable
text and the machine-readable `isError` flag. -/
structure ToolResult where
  text : String
  isError : Bool
deriving DecidableEq, Repr

/-- The distinct ways `uploadMediaTool.handler` can leave its validation
prologue: one of the three early rejections (each carrying the returned
tool result, with no network call made), or `sent` — the point where
`uploadMedia(buffer, file_name, contentType)` performs the network call
to the collaborator, carrying the decoded byte length and chosen
content type. -/
inductive UploadOutcome where
  | rejectedType (res : ToolResult)
  | rejectedContent (res : ToolResult)
  | rejectedSize (res : ToolResult)
  | sent (decodedLen : Nat) (contentType : String)
deriving DecidableEq, Repr

/-- `contentTypeMap[fileExtension] || 'application/octet-stream'`
(media-tools.ts lines 80-94). -/
def contentTypeFor (ext : String) : String :=
  if ext == "jpg" then "image/jpeg"
  else if ext == "jpeg" then "image/jpeg"
  else if ext == "png" then "image/png"
  else if ext == "gif" then "image/gif"
  else if ext == "pdf" then "application/pdf"
  else if ext == "doc" then "application/msword"
  else if ext == "docx" then
    "application/vnd.openxmlformats-officedocument.wordprocessingml.document"
  else if ext == "mp3" then "audio/mpeg"
  else if ext == "mp4" then "video/mp4"
  else if ext == "webp" then "image/webp"
  else "application/octet-stream"

/-- The validation prologue of `uploadMediaTool.handler` (media-tools.ts
lines 31-97), up to the collaborator call:
1. reject when the declared extension is not in `allowed` (lines 35-46);
2. decode base64 — the catch branch fires only if `Buffer.from` throws
   (lines 48-58);
3. reject when the decoded size in MB exceeds `maxMB` (lines 65-75);
   `buffer.length / (1024*1024) > MAX_FILE_SIZE_MB` compares a float
   obtained by exact scaling, so it holds exactly when
   `maxMB * 1048576 < decodedLen`;
4. otherwise transmit.
The numeric rendering (`toFixed(2)`) inside the size message is
abstracted to the raw byte count; all rejection texts otherwise follow
the source. -/
def uploadMediaHandler (allowed : List String) (maxMB : Nat)
    (file_content file_name : String) : UploadOutcome :=
  let ext := fileExtension file_name
  if ext ∉ allowed then
    UploadOutcome.rejectedType
      { text := "Error: Unsupported file type: " ++ ext ++
          ". Allowed types: " ++ String.intercalate ", " allowed,
        isError := true }
  else if bufferFromBase64Throws file_content then
    UploadOutcome.rejectedContent
      { text := "Error: Invalid file content. The content must be base64 encoded.",
        isError := true }
  else
    let decodedLen := base64DecodedLen file_content
    if maxMB * 1048576 < decodedLen then
      UploadOutcome.rejectedSize
        { text := "Error: File size (" ++ toString decodedLen ++
            " bytes) exceeds the maximum allowed size of " ++
            toString maxMB ++ " MB",
          isError := true }
    else
      UploadOutcome.sent decodedLen (contentTypeFor ext)

/-! ### Registry lemmas -/

theorem mem_removeKey {x sid : String} {l : List String} :
    x ∈ removeKey sid l ↔ x ∈ l ∧ x ≠ sid := by
  simp [removeKey, List.mem_filter, bne_iff_ne]

theorem removeKey_eq_of_not_mem {sid : String} {l : List String}
    (h : sid ∉ l) : removeKey sid l = l := by
  rw [removeKey, List.filter_eq_self]
  intro a ha
  exact bne_iff_ne.mpr (fun he => h (he ▸ ha))

theorem removeTime_eq_of_not_mem {sid : String} {l : List (String × Nat)}
    (h : ∀ t, (sid, t) ∉ l) : removeTime sid l = l := by
  rw [removeTime, List.filter_eq_self]
  intro p hp
  refine bne_iff_ne.mpr (fun he => h p.2 ?_)
  rw [← he]
  simpa using hp

theorem closeTransport_not_mem_self (cf : String → Bool) (sid : String)
    (st : St) : sid ∉ ((closeTransport cf sid st).1).transports := by
  by_cases h : sid ∈ st.transports
  · simp [closeTransport, h, mem_removeKey]
  · simp [closeTransport, h]

theorem closeTransport_transports_subset (cf : String → Bool) (sid : String)
    (st : St) {x : String}
    (hx : x ∈ ((closeTransport cf sid st).1).transports) :
    x ∈ st.transports := by
  by_cases h : sid ∈ st.transports
  · simp [closeTransport, h, mem_removeKey] at hx
    exact hx.1
  · simpa [closeTransport, h] using hx

theorem closeTransport_times_subset (cf : String → Bool) (sid : String)
    (st : St) {p : String × Nat}
    (hp : p ∈ ((closeTransport cf sid st).1).times) : p ∈ st.times := by
  by_cases h : sid ∈ st.transports
  · simp only [closeTransport, h, if_pos] at hp
    exact (List.mem_filter.mp hp).1
  · simpa [closeTransport, h] using hp

theorem closeTransport_of_not_mem (cf : String → Bool) {sid : String}
    {st : St} (h : sid ∉ st.transports) : closeTransport cf sid st = (st, false) := by
  simp [closeTransport, h]

theorem closeTransport_state_independent (cf cf' : String → Bool)
    (sid : String) (st : St) :
    (closeTransport cf sid st).1 = (closeTransport cf' sid st).1 := by
  by_cases h : sid ∈ st.transports <;> simp [closeTransport, h]

/-! ### Fold lemmas for sweeps over the registry -/

theorem sweep_preserves_not_mem (cf : String → Bool) (L : List String)
    {st : St} {x : String} (hx : x ∉ st.transports) :
    x ∉ ((L.foldl (fun s sid => (closeTransport cf sid s).1) st).transports) := by
  induction L generalizing st with
  | nil => exact hx
  | cons a t ih =>
    exact ih (fun hmem => hx (closeTransport_transports_subset cf a st hmem))

theorem sweep_kills_mem (cf : String → Bool) (L : List String) (st : St)
    {x : String} (hx : x ∈ L) :
    x ∉ ((L.foldl (fun s sid => (closeTransport cf sid s).1) st).transports) := by
  induction L generalizing st with
  | nil => cases hx
  | cons a t ih =>
    rcases List.mem_cons.mp hx with h | h
    · subst h
      exact sweep_preserves_not_mem cf t (closeTransport_not_mem_self cf x st)
    · exact ih _ h

theorem sweep_transports_subset (cf : String → Bool) (L : List String)
    (st : St) {x : String}
    (hx : x ∈ ((L.foldl (fun s sid => (closeTransport cf sid s).1) st).transports)) :
    x ∈ st.transports := by
  induction L generalizing st with
  | nil => exact hx
  | cons a t ih =>
    exact closeTransport_transports_subset cf a st (ih _ hx)

theorem sweep_times_subset (cf : String → Bool) (L : List String)
    (st : St) {p : String × Nat}
    (hp : p ∈ ((L.foldl (fun s sid => (closeTransport cf sid s).1) st).times)) :
    p ∈ st.times := by
  induction L generalizing st with
  | nil => exact hp
  | cons a t ih =>
    exact closeTransport_times_subset cf a st (ih _ hp)

theorem sweep_noop (cf : String → Bool) (L : List String) {st : St}
    (h : ∀ x ∈ L, x ∉ st.transports) :
    L.foldl (fun s sid => (closeTransport cf sid s).1) st = st := by
  induction L with
  | nil => rfl
  | cons a t ih =>
    have ha : closeTransport cf a st = (st, false) :=
      closeTransport_of_not_mem cf (h a (List.mem_cons_self a t))
    simp only [List.foldl_cons, ha]
    exact ih (fun x hx => h x (List.mem_cons_of_mem a hx))

theorem sweep_state_independent (cf cf' : String → Bool) (L : List String)
    (st : St) :
    L.foldl (fun s sid => (closeTransport cf sid s).1) st =
      L.foldl (fun s sid => (closeTransport cf' sid s).1) st := by
  induction L generalizing st with
  | nil => rfl
  | cons a t ih =>
    simp only [List.foldl_cons, closeTransport_state_independent cf cf' a st]
    exact ih _

theorem mem_removeTime {p : String × Nat} {sid : String}
    {l : List (String × Nat)} :
    p ∈ removeTime sid l ↔ p ∈ l ∧ p.1 ≠ sid := by
  simp [removeTime, List.mem_filter, bne_iff_ne]

theorem mem_expiredIds {sid : String} {now : Nat} {st : St} :
    sid ∈ expiredIds now st ↔
      ∃ t, (sid, t) ∈ st.times ∧ t + SESSION_TIMEOUT_MS < now := by
  constructor
  · intro h
    simp only [expiredIds, List.mem_map, List.mem_filter] at h
    obtain ⟨p, ⟨hp, hexp⟩, heq⟩ := h
    refine ⟨p.2, ?_, by simpa using hexp⟩
    rw [← heq]
    simpa using hp
  · intro ⟨t, hp, hexp⟩
    simp only [expiredIds, List.mem_map, List.mem_filter]
    exact ⟨(sid, t), ⟨hp, by simpa using hexp⟩, rfl⟩

/-! ### Claim theorems -/

/-- C4: removing a streaming session twice — explicit DELETE then a late
on-close callback, or vice versa (both run `closeTransport`) — never
raises an error (the engine's `close()` throw is caught, for every
failure pattern), removing an absent id is a no-op, and the registry ends
up without that entry exactly once. -/
theorem remove_session_twice_safe (cf cf' : String → Bool) (sid : String)
    (st : St) (hwf : ∀ t, (sid, t) ∈ st.times → sid ∈ st.transports) :
    (closeTransport cf sid (closeTransport cf' sid st).1).1 =
      (closeTransport cf' sid st).1 ∧
    (sid ∉ st.transports → (closeTransport cf sid st).1 = st) ∧
    sid ∉ ((closeTransport cf sid st).1).transports ∧
    (∀ t, (sid, t) ∉ ((closeTransport cf sid st).1).times) := by
  refine ⟨?_, ?_, closeTransport_not_mem_self cf sid st, ?_⟩
  · have h := closeTransport_not_mem_self cf' sid st
    simp [closeTransport_of_not_mem cf h]
  · intro h
    simp [closeTransport_of_not_mem cf h]
  · intro t ht
    by_cases h : sid ∈ st.transports
    · simp only [closeTransport, h, if_pos] at ht
      exact (mem_removeTime.mp ht).2 rfl
    · rw [closeTransport_of_not_mem cf h] at ht
      exact h (hwf t ht)

/-- C2: a `/mcp` request bearing a session identifier that is not in the
registry (never issued, expired, or already deleted) is answered with a
protocol error of code -32000, and the registries are left unchanged — no
session is created as a side effect. -/
theorem unknown_session_rejected (ctx : Ctx) (cf : String → Bool) (req : Req)
    (st : St) (sid : String) (hsid : req.sessionId = some sid)
    (hunk : sid ∉ st.transports) :
    (∃ status idv, (handleStreamableHttpRequest ctx cf req st).1 =
      Resp.err status (-32000) idv) ∧
    (handleStreamableHttpRequest ctx cf req st).2 = st := by
  by_cases hd : req.method = Method.DELETE
  · exact ⟨⟨404, ReqId.null,
      by simp [handleStreamableHttpRequest, hsid, hd, hunk]⟩,
      by simp [handleStreamableHttpRequest, hsid, hd, hunk]⟩
  · exact ⟨⟨400, respId req.body,
      by simp [handleStreamableHttpRequest, hsid, hd, hunk]⟩,
      by simp [handleStreamableHttpRequest, hsid, hd, hunk]⟩

/-- C6: DELETE `/mcp` with a registered session identifier closes that
session's engine (via `closeTransport`), removes the entry and answers
with the success envelope; DELETE with an absent identifier answers a
-32000 "not found" error without touching the state (not fatal — the
handler returns normally); and a subsequent POST bearing the deleted
identifier is answered with a -32000 error. -/
theorem delete_session_behavior (ctx : Ctx) (cf : String → Bool)
    (sid : String) (st st' : St) (bdel bpost : Body)
    (hknown : sid ∈ st.transports) (habsent : sid ∉ st'.transports) :
    handleStreamableHttpRequest ctx cf ⟨Method.DELETE, some sid, bdel⟩ st =
      (Resp.terminated, (closeTransport cf sid st).1) ∧
    sid ∉ ((handleStreamableHttpRequest ctx cf
      ⟨Method.DELETE, some sid, bdel⟩ st).2).transports ∧
    handleStreamableHttpRequest ctx cf ⟨Method.DELETE, some sid, bdel⟩ st' =
      (Resp.err 404 (-32000) ReqId.null, st') ∧
    (handleStreamableHttpRequest ctx cf ⟨Method.POST, some sid, bpost⟩
      ((handleStreamableHttpRequest ctx cf
        ⟨Method.DELETE, some sid, bdel⟩ st).2)).1 =
      Resp.err 400 (-32000) (respId bpost) := by
  have hdel : handleStreamableHttpRequest ctx cf
      ⟨Method.DELETE, some sid, bdel⟩ st =
      (Resp.terminated, (closeTransport cf sid st).1) := by
    simp [handleStreamableHttpRequest, hknown]
  refine ⟨hdel, ?_, ?_, ?_⟩
  · rw [hdel]
    exact closeTransport_not_mem_self cf sid st
  · simp [handleStreamableHttpRequest, habsent]
  · rw [hdel]
    have h := closeTransport_not_mem_self cf sid st
    simp [handleStreamableHttpRequest, h]

/-- C5: after a reaper tick, no session whose last activity is more than
the idle threshold before `now` remains in the registry; a failure
closing one session does not change the sweep's outcome (the result is
the same for every failure pattern); and sweeping twice is safe
(the tick is idempotent). -/
theorem reaper_tick_evicts_expired (cf cf' : String → Bool) (now : Nat)
    (st : St) :
    (∀ sid t, (sid, t) ∈ st.times → t + SESSION_TIMEOUT_MS < now →
      sid ∉ (reaperTick cf now st).transports) ∧
    reaperTick cf now (reaperTick cf now st) = reaperTick cf now st ∧
    reaperTick cf now st = reaperTick cf' now st := by
  have hkill : ∀ sid t, (sid, t) ∈ st.times → t + SESSION_TIMEOUT_MS < now →
      sid ∉ (reaperTick cf now st).transports := by
    intro sid t hp hexp
    exact sweep_kills_mem cf (expiredIds now st) st
      (mem_expiredIds.mpr ⟨t, hp, hexp⟩)
  refine ⟨hkill, ?_, sweep_state_independent cf cf' _ st⟩
  apply sweep_noop
  intro x hx
  obtain ⟨t, hp, hexp⟩ := mem_expiredIds.mp hx
  exact hkill x t (sweep_times_subset cf (expiredIds now st) st hp) hexp

/-- C1: a valid initialization POST with no session header is answered
with the freshly minted session identifier — previously unseen, by the
freshness of the generator — the session is registered (both registries)
only because the engine confirmed acceptance: with an engine that does
not accept, the state is unchanged for every request body; and a
subsequent POST bearing the new identifier is routed to that session's
engine, not rejected as unknown. -/
theorem init_register_then_lookup (ctx : Ctx) (cf : String → Bool)
    (b bnext : Body) (st : St)
    (hfresh : ctx.freshId ∉ st.transports)
    (hvalid : (ctx.isInitReq b || isManuallyValidated b) = true)
    (hacc : ctx.accepts = true) :
    ctx.freshId ∉ st.transports ∧
    (handleStreamableHttpRequest ctx cf ⟨Method.POST, none, b⟩ st).1 =
      Resp.initHandled ctx.freshId ∧
    ctx.freshId ∈ ((handleStreamableHttpRequest ctx cf
      ⟨Method.POST, none, b⟩ st).2).transports ∧
    (∀ ctx' : Ctx, ctx'.accepts = false → ∀ b' : Body,
      (handleStreamableHttpRequest ctx' cf ⟨Method.POST, none, b'⟩ st).2 = st) ∧
    (handleStreamableHttpRequest ctx cf ⟨Method.POST, some ctx.freshId, bnext⟩
      ((handleStreamableHttpRequest ctx cf ⟨Method.POST, none, b⟩ st).2)).1 =
      Resp.handled ctx.freshId := by
  have hinit : handleStreamableHttpRequest ctx cf ⟨Method.POST, none, b⟩ st =
      (Resp.initHandled ctx.freshId, registerSession ctx.freshId ctx.now st) := by
    simp [handleStreamableHttpRequest, hvalid, hacc]
  have hmem : ctx.freshId ∈ (registerSession ctx.freshId ctx.now st).transports :=
    List.mem_cons_self _ _
  refine ⟨hfresh, by rw [hinit], by rw [hinit]; exact hmem, ?_, ?_⟩
  · intro ctx' hacc' b'
    by_cases hv : (ctx'.isInitReq b' || isManuallyValidated b') = true
    · simp [handleStreamableHttpRequest, hv, hacc']
    · simp [handleStreamableHttpRequest, hv]
  · rw [hinit]
    simp [handleStreamableHttpRequest, hmem]

/-- C3: a POST to `/mcp` without a session identifier creates a session
exactly when the body matches the initialization shape — JSON-RPC 2.0
envelope, method "initialize", truthy client name and version, present
request id — and otherwise is rejected with a protocol error echoing the
body's id (or `null` when absent) without creating any session.  The
SDK's own check is quantified over here under the hypothesis — the spec's
reading of it — that it accepts only bodies of that same shape
(`hcol`). -/
theorem init_validation_decides_creation (ctx : Ctx) (cf : String → Bool)
    (b : Body) (st : St) (hacc : ctx.accepts = true)
    (hcol : ∀ b', ctx.isInitReq b' = true → isManuallyValidated b' = true) :
    (isManuallyValidated b = true →
      handleStreamableHttpRequest ctx cf ⟨Method.POST, none, b⟩ st =
        (Resp.initHandled ctx.freshId,
         registerSession ctx.freshId ctx.now st)) ∧
    (isManuallyValidated b = false →
      handleStreamableHttpRequest ctx cf ⟨Method.POST, none, b⟩ st =
        (Resp.err 400 (-32000) (respId b), st)) := by
  constructor
  · intro hv
    simp [handleStreamableHttpRequest, hv, hacc]
  · intro hv
    have hcol' : ctx.isInitReq b = false := by
      by_contra h
      rw [Bool.not_eq_false] at h
      rw [hcol b h] at hv
      cases hv
    simp [handleStreamableHttpRequest, hv, hcol']

theorem closeAllSse_fst (cf : String → Bool) (l : SseSt) :
    (closeAllSseTransports cf l).1 = l.filter cf := by
  induction l with
  | nil => rfl
  | cons a t ih => simp [closeAllSseTransports, List.filter_cons, ih]

theorem mem_closeAllSse (cf : String → Bool) (l : SseSt) {x : String} :
    x ∈ (closeAllSseTransports cf l).1 ↔ x ∈ l ∧ cf x = true := by
  simp [closeAllSse_fst, List.mem_filter]

/-- C7: on a termination signal, every session of the streamable registry
is removed no matter which per-session closes fail, `close()` is invoked
on every legacy SSE session, an SSE session whose own close succeeds is
deregistered regardless of other sessions' failures, each registry's
sweep is unaffected by the other registry's failure pattern, and the
process exit code is 0 when graceful shutdown completes within the
deadline and 1 otherwise. -/
theorem shutdown_closes_all_sessions (cfS cfSse cfS' cfSse' : String → Bool)
    (wd : Bool) (stream : St) (sse : SseSt) :
    (∀ sid ∈ stream.transports,
      sid ∉ ((sigintShutdown cfS cfSse wd stream sse).1).transports) ∧
    (closeAllSseTransports cfSse sse).2 = sse ∧
    (∀ sid ∈ sse, cfSse sid = false →
      sid ∉ (sigintShutdown cfS cfSse wd stream sse).2.1) ∧
    (sigintShutdown cfS cfSse wd stream sse).1 =
      (sigintShutdown cfS cfSse' wd stream sse).1 ∧
    (sigintShutdown cfS cfSse wd stream sse).2.1 =
      (sigintShutdown cfS' cfSse wd stream sse).2.1 ∧
    (sigintShutdown cfS cfSse wd stream sse).2.2 =
      (if wd then 0 else 1) := by
  refine ⟨?_, ?_, ?_, rfl, rfl, rfl⟩
  · intro sid hsid
    exact sweep_kills_mem cfS stream.transports stream hsid
  · induction sse with
    | nil => rfl
    | cons a t ih => simp [closeAllSseTransports, ih]
  · intro sid hsid hok
    intro hmem
    have := (mem_closeAllSse cfSse sse).mp hmem
    rw [hok] at this
    cases this.2

/-- C8: a POST to `/messages` whose `sessionId` query parameter is absent
or does not match a registered legacy SSE session is answered with a
-32000 protocol error; when it matches, an error thrown while processing
the message is caught and converted into a -32603 internal-error response
(never propagated — the handler always produces a response), and a clean
run forwards the message to that session's engine. -/
theorem sse_message_error_handling (pf : Bool) (sid : String)
    (bid : Option ReqId) (st : SseSt) :
    (sid ∉ st → handleSseMessage pf (some sid) bid st =
      SseResp.err 400 (-32000) bid) ∧
    handleSseMessage pf none bid st = SseResp.err 400 (-32000) bid ∧
    (sid ∈ st → pf = true → handleSseMessage pf (some sid) bid st =
      SseResp.err 500 (-32603) bid) ∧
    (sid ∈ st → pf = false → handleSseMessage pf (some sid) bid st =
      SseResp.forwarded sid) := by
  refine ⟨?_, rfl, ?_, ?_⟩
  · intro h
    simp [handleSseMessage, h]
  · intro h hpf
    simp [handleSseMessage, h, hpf]
  · intro h hpf
    simp [handleSseMessage, h, hpf]

theorem string_append_ne_empty {s : String} (t : String) (hs : s ≠ "") :
    s ++ t ≠ "" := by
  intro h
  apply hs
  have hl := congrArg String.length h
  rw [String.length_append] at hl
  simp only [String.length_empty] at hl
  have h0 : s.length = 0 := by omega
  cases s with
  | mk d =>
    cases d with
    | nil => rfl
    | cons c cs => simp [String.length] at h0

/-- C9: `upload_media` rejects a file whose declared extension is outside
the allowed list before reaching the collaborator call (the outcome is
the `rejectedType` result, not `sent`), rejects a file whose decoded size
exceeds the configured ceiling before transmission, and each rejection is
a returned result with non-empty human-readable text and the
machine-readable `isError` flag set — not an exception. -/
theorem upload_media_rejects_before_network (allowed : List String)
    (maxMB : Nat) (content file_name : String) :
    (fileExtension file_name ∉ allowed →
      ∃ r : ToolResult,
        uploadMediaHandler allowed maxMB content file_name =
          UploadOutcome.rejectedType r ∧ r.isError = true ∧ r.text ≠ "") ∧
    (fileExtension file_name ∈ allowed →
      maxMB * 1048576 < base64DecodedLen content →
      ∃ r : ToolResult,
        uploadMediaHandler allowed maxMB content file_name =
          UploadOutcome.rejectedSize r ∧ r.isError = true ∧ r.text ≠ "") ∧
    (∀ r : ToolResult,
      (uploadMediaHandler allowed maxMB content file_name =
          UploadOutcome.rejectedType r ∨
       uploadMediaHandler allowed maxMB content file_name =
          UploadOutcome.rejectedSize r) →
      ∀ len ct, uploadMediaHandler allowed maxMB content file_name ≠
        UploadOutcome.sent len ct) := by
  refine ⟨?_, ?_, ?_⟩
  · intro hext
    have h : uploadMediaHandler allowed maxMB content file_name =
        UploadOutcome.rejectedType
          { text := "Error: Unsupported file type: " ++
              fileExtension file_name ++ ". Allowed types: " ++
              String.intercalate ", " allowed,
            isError := true } := by
      simp [uploadMediaHandler, hext]
    exact ⟨_, h, rfl,
      string_append_ne_empty _ (string_append_ne_empty _
        (string_append_ne_empty _ (by decide)))⟩
  · intro hext hsize
    have h : uploadMediaHandler allowed maxMB content file_name =
        UploadOutcome.rejectedSize
          { text := "Error: File size (" ++
              toString (base64DecodedLen content) ++
              " bytes) exceeds the maximum allowed size of " ++
              toString maxMB ++ " MB",
            isError := true } := by
      simp [uploadMediaHandler, hext, bufferFromBase64Throws, hsize]
    exact ⟨_, h, rfl,
      string_append_ne_empty _ (string_append_ne_empty _
        (string_append_ne_empty _ (string_append_ne_empty _ (by decide))))⟩
  · intro r hr len ct hsent
    rcases hr with h | h <;> rw [h] at hsent <;> cases hsent

/-- C10: the "Invalid file content" branch of `upload_media` is
unreachable — `Buffer.from(file_content, 'base64')` never throws for a
string argument (Node decodes malformed base64 on a best-effort basis),
so the handler never returns the invalid-base64 rejection, for any
configuration and any input. -/
theorem upload_media_never_rejects_content (allowed : List String)
    (maxMB : Nat) (content file_name : String) (r : ToolResult) :
    uploadMediaHandler allowed maxMB content file_name ≠
      UploadOutcome.rejectedContent r := by
  simp only [uploadMediaHandler, bufferFromBase64Throws, Bool.false_eq_true,
    if_false]
  split_ifs <;> simp

/-! ### Concrete inputs for the witnesses -/

/-- A well-formed initialization body: client name "test", version "1.0",
id 1 (end-to-end scenario A of the spec). -/
def sampleInitBody : Body :=
  { jsonrpc := some "2.0", method := some "initialize",
    client_name := some "test", client_version := some "1.0",
    id := some (ReqId.num 1) }

/-- An in-session `tools/call` body with id 2. -/
def sampleCallBody : Body :=
  { jsonrpc := some "2.0", method := some "tools/call",
    client_name := none, client_version := none,
    id := some (ReqId.num 2) }

/-- A request context whose SDK check rejects everything (the manual
fallback decides), minting session id "sess-1" at time 1000 with an
accepting engine. -/
def sampleCtx : Ctx :=
  { isInitReq := fun _ => false, freshId := "sess-1", accepts := true,
    now := 1000 }

/-- A failure pattern under which no engine close throws. -/
def noFail : String → Bool := fun _ => false

/-- A failure pattern under which only session "bad" fails to close. -/
def oneFail : String → Bool := fun s => s == "bad"

/-- A registry holding one session "abc", last active at t = 100 ms. -/
def sampleSt : St := { transports := ["abc"], times := [("abc", 100)] }

/-! ### Witnesses -/

/-- C1 witness at a concrete initialization, on the empty registry. -/
theorem init_register_then_lookup_witness :
    sampleCtx.freshId ∉ (St.mk [] []).transports ∧
    (handleStreamableHttpRequest sampleCtx noFail
      ⟨Method.POST, none, sampleInitBody⟩ ⟨[], []⟩).1 =
      Resp.initHandled sampleCtx.freshId ∧
    sampleCtx.freshId ∈ ((handleStreamableHttpRequest sampleCtx noFail
      ⟨Method.POST, none, sampleInitBody⟩ ⟨[], []⟩).2).transports ∧
    (handleStreamableHttpRequest sampleCtx noFail
      ⟨Method.POST, some sampleCtx.freshId, sampleCallBody⟩
      ((handleStreamableHttpRequest sampleCtx noFail
        ⟨Method.POST, none, sampleInitBody⟩ ⟨[], []⟩).2)).1 =
      Resp.handled sampleCtx.freshId := by
  have h := init_register_then_lookup sampleCtx noFail sampleInitBody
    sampleCallBody ⟨[], []⟩ (by decide) (by decide) rfl
  exact ⟨h.1, h.2.1, h.2.2.1, h.2.2.2.2⟩

/-- C2 witness: a POST bearing the never-issued id "ghost". -/
theorem unknown_session_rejected_witness :
    (∃ status idv, (handleStreamableHttpRequest sampleCtx noFail
      ⟨Method.POST, some "ghost", sampleCallBody⟩ sampleSt).1 =
      Resp.err status (-32000) idv) ∧
    (handleStreamableHttpRequest sampleCtx noFail
      ⟨Method.POST, some "ghost", sampleCallBody⟩ sampleSt).2 = sampleSt :=
  unknown_session_rejected sampleCtx noFail _ sampleSt "ghost" rfl (by decide)

/-- C3 witness: the valid body creates and registers the session; an
in-session body without the initialization shape is rejected echoing its
id, state untouched. -/
theorem init_validation_decides_creation_witness :
    handleStreamableHttpRequest sampleCtx noFail
      ⟨Method.POST, none, sampleInitBody⟩ ⟨[], []⟩ =
      (Resp.initHandled sampleCtx.freshId,
       registerSession sampleCtx.freshId sampleCtx.now ⟨[], []⟩) ∧
    handleStreamableHttpRequest sampleCtx noFail
      ⟨Method.POST, none, sampleCallBody⟩ ⟨[], []⟩ =
      (Resp.err 400 (-32000) (respId sampleCallBody), ⟨[], []⟩) :=
  ⟨(init_validation_decides_creation sampleCtx noFail sampleInitBody
      ⟨[], []⟩ rfl (fun _ h => Bool.noConfusion h)).1 (by decide),
   (init_validation_decides_creation sampleCtx noFail sampleCallBody
      ⟨[], []⟩ rfl (fun _ h => Bool.noConfusion h)).2 (by decide)⟩

/-- C4 witness: double removal of "abc" (one close failing, one clean) on
the one-session registry. -/
theorem remove_session_twice_safe_witness :
    (closeTransport noFail "abc" (closeTransport oneFail "abc" sampleSt).1).1 =
      (closeTransport oneFail "abc" sampleSt).1 ∧
    ("abc" ∉ sampleSt.transports → (closeTransport noFail "abc" sampleSt).1 =
      sampleSt) ∧
    "abc" ∉ ((closeTransport noFail "abc" sampleSt).1).transports ∧
    (∀ t, ("abc", t) ∉ ((closeTransport noFail "abc" sampleSt).1).times) :=
  remove_session_twice_safe noFail oneFail "abc" sampleSt
    (fun _ _ => by decide)

/-- C5 witness: at t = 2000000 ms the session last active at t = 100 ms is
over the 30-minute threshold and is gone after one tick; ticking again
changes nothing. -/
theorem reaper_tick_evicts_expired_witness :
    "abc" ∉ (reaperTick noFail 2000000 sampleSt).transports ∧
    reaperTick noFail 2000000 (reaperTick noFail 2000000 sampleSt) =
      reaperTick noFail 2000000 sampleSt := by
  have h := reaper_tick_evicts_expired noFail oneFail 2000000 sampleSt
  exact ⟨h.1 "abc" 100 (by decide) (by decide), h.2.1⟩

/-- C6 witness: DELETE of the live session "abc", DELETE against the empty
registry, and the POST that follows the successful DELETE. -/
theorem delete_session_behavior_witness :
    handleStreamableHttpRequest sampleCtx noFail
      ⟨Method.DELETE, some "abc", sampleCallBody⟩ sampleSt =
      (Resp.terminated, (closeTransport noFail "abc" sampleSt).1) ∧
    "abc" ∉ ((handleStreamableHttpRequest sampleCtx noFail
      ⟨Method.DELETE, some "abc", sampleCallBody⟩ sampleSt).2).transports ∧
    handleStreamableHttpRequest sampleCtx noFail
      ⟨Method.DELETE, some "abc", sampleCallBody⟩ ⟨[], []⟩ =
      (Resp.err 404 (-32000) ReqId.null, ⟨[], []⟩) ∧
    (handleStreamableHttpRequest sampleCtx noFail
      ⟨Method.POST, some "abc", sampleCallBody⟩
      ((handleStreamableHttpRequest sampleCtx noFail
        ⟨Method.DELETE, some "abc", sampleCallBody⟩ sampleSt).2)).1 =
      Resp.err 400 (-32000) (respId sampleCallBody) :=
  delete_session_behavior sampleCtx noFail "abc" sampleSt ⟨[], []⟩
    sampleCallBody sampleCallBody (by decide) (by decide)

/-- C7 witness: shutdown over one streamable session and two SSE sessions,
of which "bad" fails to close, inside the deadline. -/
theorem shutdown_closes_all_sessions_witness :
    "abc" ∉ ((sigintShutdown noFail oneFail true sampleSt
      ["s1", "bad"]).1).transports ∧
    (closeAllSseTransports oneFail ["s1", "bad"]).2 = ["s1", "bad"] ∧
    "s1" ∉ (sigintShutdown noFail oneFail true sampleSt ["s1", "bad"]).2.1 ∧
    (sigintShutdown noFail oneFail true sampleSt ["s1", "bad"]).2.2 = 0 := by
  have h := shutdown_closes_all_sessions noFail oneFail noFail oneFail true
    sampleSt ["s1", "bad"]
  exact ⟨h.1 "abc" (by decide), h.2.1, h.2.2.1 "s1" (by decide) (by decide),
    h.2.2.2.2.2⟩

/-- C8 witness: an unmatched `sessionId`, a matched one whose processing
throws, and a clean forward. -/
theorem sse_message_error_handling_witness :
    handleSseMessage false (some "ghost") (some (ReqId.num 3)) ["s1"] =
      SseResp.err 400 (-32000) (some (ReqId.num 3)) ∧
    handleSseMessage true (some "s1") (some (ReqId.num 3)) ["s1"] =
      SseResp.err 500 (-32603) (some (ReqId.num 3)) ∧
    handleSseMessage false (some "s1") (some (ReqId.num 3)) ["s1"] =
      SseResp.forwarded "s1" :=
  ⟨(sse_message_error_handling false "ghost" (some (ReqId.num 3)) ["s1"]).1
      (by decide),
   (sse_message_error_handling true "s1" (some (ReqId.num 3)) ["s1"]).2.2.1
      (by decide) rfl,
   (sse_message_error_handling false "s1" (some (ReqId.num 3)) ["s1"]).2.2.2
      (by decide) rfl⟩

/-- C9 witness: an `.exe` upload is rejected by type under the default
extension list; a 4-byte decode exceeds a 0 MB ceiling and is rejected by
size. -/
theorem upload_media_rejects_before_network_witness :
    (∃ r : ToolResult,
      uploadMediaHandler ALLOWED_FILE_TYPES 50 "QUFB" "malware.exe" =
        UploadOutcome.rejectedType r ∧ r.isError = true ∧ r.text ≠ "") ∧
    (∃ r : ToolResult,
      uploadMediaHandler ALLOWED_FILE_TYPES 0 "QUFBQQ==" "photo.jpg" =
        UploadOutcome.rejectedSize r ∧ r.isError = true ∧ r.text ≠ "") :=
  ⟨(upload_media_rejects_before_network ALLOWED_FILE_TYPES 50 "QUFB"
      "malware.exe").1 (by decide),
   (upload_media_rejects_before_network ALLOWED_FILE_TYPES 0 "QUFBQQ=="
      "photo.jpg").2.1 (by decide) (by decide)⟩

/-- C10 witness: even malformed base64 input never yields the
invalid-content rejection. -/
theorem upload_media_never_rejects_content_witness :
    uploadMediaHandler ALLOWED_FILE_TYPES 50 "!!!not-base64!!!" "a.jpg" ≠
      UploadOutcome.rejectedContent ⟨"x", true⟩ :=
  upload_media_never_rejects_content ALLOWED_FILE_TYPES 50
    "!!!not-base64!!!" "a.jpg" ⟨"x", true⟩

end WpMcp


